import Mathlib

/-!
Shallow embedding of `stable_baselines/common/cmd_util.py`.

The module under study builds gym environments, wraps them (Monitor,
FlattenDictWrapper, wrap_deepmind, a user-supplied wrapper class), seeds
them, and packs per-environment initializer thunks into a DummyVecEnv or
SubprocVecEnv.  External collaborators (gym, Monitor, the vec-env classes,
set_global_seeds, the logger) are modelled symbolically: environment values
are a syntax tree of the constructor and wrapper applications the module
performs, and side effects (global seeding, environment creation, calls to
env.seed) are recorded in an ordered trace.  Python name-resolution errors
(NameError, UnboundLocalError) are modelled by an explicit scoping rule:
a name assigned anywhere in a function body is local to that body, and a
read of such a name before its assignment raises UnboundLocalError; a name
that is neither local nor visible in an enclosing scope or the module
globals raises NameError.
-/

namespace CmdUtil

/-- Symbolic gym environment values: each constructor records one
environment-construction or wrapper application performed by the module.
Option fields of `monitor` record only the keyword arguments that a call
site actually passes (none = argument not passed, left to its default). -/
inductive GymEnv where
  | gymMake (envId : String)
  | customMake (classId : Nat) (kwargs : List (String × String))
  | makeAtari (envId : String)
  | monitor (env : GymEnv) (filename : Option String)
      (allowEarlyResets : Option Bool) (infoKeywords : Option (List String))
  | flattenDict (env : GymEnv) (keys : List String)
  | wrapDeepmind (env : GymEnv) (kwargs : List (String × String))
  | wrapperClass (env : GymEnv) (classId : Nat)
deriving Repr, DecidableEq

/-- Observable side effects, recorded in execution order. -/
inductive Effect where
  | setGlobalSeeds (seed : Int)
  | createEnv (env : GymEnv)
  | envSeed (env : GymEnv) (seed : Int)
  | actionSpaceSeed (env : GymEnv) (seed : Int)
deriving Repr, DecidableEq

/-- Python runtime errors that the module can raise by itself. -/
inductive PyError where
  | unboundLocal (name : String)
  | nameError (name : String)
deriving Repr, DecidableEq

/-- Result of running a piece of the module: a value or an error, together
with the effect trace accumulated up to that point (an error keeps the
effects already performed, so non-atomic failures are observable). -/
inductive PyResult (α : Type) where
  | ok (value : α) (trace : List Effect)
  | error (err : PyError) (trace : List Effect)
deriving Repr, DecidableEq

/-- Effect-trace state monad with Python exceptions. -/
def PyM (α : Type) : Type := List Effect → PyResult α

def PyM.pure {α : Type} (a : α) : PyM α := fun tr => PyResult.ok a tr

def PyM.bind {α β : Type} (m : PyM α) (f : α → PyM β) : PyM β := fun tr =>
  match m tr with
  | PyResult.ok a tr' => f a tr'
  | PyResult.error e tr' => PyResult.error e tr'

instance : Monad PyM where
  pure := PyM.pure
  bind := PyM.bind

/-- Record one side effect. -/
def emit (e : Effect) : PyM Unit := fun tr => PyResult.ok () (tr ++ [e])

/-- Raise a Python error. -/
def pyRaise {α : Type} (e : PyError) : PyM α := fun tr => PyResult.error e tr

/-- Python name resolution for a read inside a function body: a name that is
assigned anywhere in the body is local for the whole body, and reading it
before its first assignment raises UnboundLocalError; otherwise the name is
looked up among enclosing-scope and module-global names, and a miss raises
NameError. -/
def resolveName (assignedInScope boundSoFar outerNames : List String)
    (name : String) : Option PyError :=
  if name ∈ assignedInScope then
    if name ∈ boundSoFar then none else some (PyError.unboundLocal name)
  else if name ∈ outerNames then none
  else some (PyError.nameError name)

/-- Perform a name read, raising the error `resolveName` dictates, if any. -/
def checkName (assignedInScope boundSoFar outerNames : List String)
    (name : String) : PyM Unit :=
  match resolveName assignedInScope boundSoFar outerNames name with
  | some e => pyRaise e
  | none => PyM.pure ()

/-- Module-level global names of cmd_util.py relevant to the reads we model
(imports and builtins reachable from the functions).  Neither "rank" nor
"log_dir" is among them. -/
def module_globals : List String :=
  ["os", "gym", "FlattenDictWrapper", "logger", "Monitor", "set_global_seeds",
   "make_atari", "wrap_deepmind", "mpi_rank_or_zero", "DummyVecEnv",
   "SubprocVecEnv", "str", "isinstance", "range", "int"]

/-- POSIX `os.path.join` for the simple two-component case the module uses
(left component without trailing slash, right component relative). -/
def pathJoin (a b : String) : String := a ++ "/" ++ b

/-- The Python expression `d and os.path.join(d, str(rank))` where
`d = logger.get_dir()` is `None` or a string: `None` is falsy and gives
`None`; the empty string is falsy and gives itself; any other string gives
the joined path. -/
def monitorFilename (dir : Option String) (rank : Int) : Option String :=
  match dir with
  | none => none
  | some d => if d = "" then some "" else some (pathJoin d (toString rank))

/-- First argument of `make_vec_env`: an environment id string or an
environment class (identified by a tag) to be called with `env_kwargs`. -/
inductive EnvId where
  | str (s : String)
  | cls (classId : Nat)
deriving Repr, DecidableEq

/-- Closure data of one `_init` thunk produced by `make_vec_env.make_env`:
the captured outer variables plus the rank argument. `env_kwargs` is the
normalized dict (after the `None` default was replaced by `{}`). -/
structure InitThunk where
  env_id : EnvId
  seed : Option Int
  monitor_path : Option String
  wrapper_class : Option Nat
  env_kwargs : List (String × String)
  rank : Int
deriving Repr, DecidableEq

/-- Closure data of one `_thunk` produced by `make_atari_env.make_env`.
`wrapper_kwargs` is the normalized dict. -/
structure AtariThunk where
  env_id : String
  seed : Int
  wrapper_kwargs : List (String × String)
  allow_early_resets : Bool
  rank : Int
deriving Repr, DecidableEq

/-- A vector environment, parametric in the thunk type it is built from:
exactly the two imported constructors the module can apply. -/
inductive VecEnv (τ : Type) where
  | dummy (envFns : List τ)
  | subproc (envFns : List τ) (startMethod : Option String)
deriving Repr, DecidableEq

/-- The base environment built by lines 39-42 of `_init`:
`gym.make(env_id)` when `env_id` is a string, else `env_id(**env_kwargs)`. -/
def initBaseEnv (t : InitThunk) : GymEnv :=
  match t.env_id with
  | EnvId.str s => GymEnv.gymMake s
  | EnvId.cls c => GymEnv.customMake c t.env_kwargs

/-- Names assigned somewhere in the body of `make_vec_env._init`:
`env` (lines 40, 42, 52, 55) and `monitor_path` (line 48).  The assignment
at line 48 makes `monitor_path` local to `_init`, shadowing the enclosing
parameter of the same name. -/
def init_assigned : List String := ["env", "monitor_path"]

/-- Names visible to `_init` from its enclosing scopes (`make_env` has
`rank` and `_init`; `make_vec_env` has its parameters, the normalized
`env_kwargs` and `make_env`) together with the module globals. -/
def init_outer : List String :=
  ["rank", "_init", "env_id", "n_envs", "seed", "start_index",
   "use_subprocess", "start_method", "monitor_path", "wrapper_class",
   "env_kwargs", "make_env"] ++ module_globals

/-- Body of the `_init` thunk of `make_vec_env` (lines 38-56).
Lines 39-45 create the base environment and seed it; at line 48 the
conditional expression reads `monitor_path`, which is local to `_init`
(it is assigned on that very line) and still unbound, so the read raises
UnboundLocalError before the assignment, the `os.makedirs` branch (which
would itself read the undefined name `log_dir`), the Monitor wrapping at
line 52, and the optional `wrapper_class` wrapping can run. -/
def runInitThunk (t : InitThunk) : PyM GymEnv := do
  let env := initBaseEnv t
  emit (Effect.createEnv env)
  match t.seed with
  | some s => do
      emit (Effect.envSeed env s)
      emit (Effect.actionSpaceSeed env s)
  | none => PyM.pure ()
  checkName init_assigned ["env"] init_outer "monitor_path"
  pyRaise (PyError.unboundLocal "monitor_path")

/-- `make_vec_env` (lines 18-66).  Builds the list of `_init` thunks with
ranks `start_index + i`, seeds the global RNG when a seed is given, and
returns `DummyVecEnv(thunks)` when `n_envs == 1 or not use_subprocess`,
else `SubprocVecEnv(thunks, start_method=start_method)`. -/
def make_vec_env (env_id : EnvId) (n_envs : Int) (seed : Option Int)
    (start_index : Int) (use_subprocess : Bool) (start_method : Option String)
    (monitor_path : Option String) (wrapper_class : Option Nat)
    (env_kwargs : Option (List (String × String))) : PyM (VecEnv InitThunk) := do
  let kwargs := env_kwargs.getD []
  let mkEnv : Int → InitThunk := fun rank =>
    { env_id := env_id, seed := seed, monitor_path := monitor_path,
      wrapper_class := wrapper_class, env_kwargs := kwargs, rank := rank }
  match seed with
  | some s => emit (Effect.setGlobalSeeds s)
  | none => PyM.pure ()
  if n_envs = 1 ∨ ¬ use_subprocess then
    PyM.pure (VecEnv.dummy
      ((List.range n_envs.toNat).map (fun (i : Nat) => mkEnv ((i : Int) + start_index))))
  else
    PyM.pure (VecEnv.subproc
      ((List.range n_envs.toNat).map (fun (i : Nat) => mkEnv ((i : Int) + start_index)))
      start_method)

/-- Body of the `_thunk` of `make_atari_env` (lines 91-96):
`make_atari(env_id)`, then `env.seed(seed + rank)`, then a Monitor whose
filename is `logger.get_dir() and os.path.join(logger.get_dir(), str(rank))`
with `allow_early_resets` passed through, then `wrap_deepmind` with the
wrapper kwargs.  `loggerDir` is the external `logger.get_dir()` value at
the time the thunk runs. -/
def runAtariThunk (loggerDir : Option String) (t : AtariThunk) : PyM GymEnv := do
  let env := GymEnv.makeAtari t.env_id
  emit (Effect.createEnv env)
  emit (Effect.envSeed env (t.seed + t.rank))
  let env := GymEnv.monitor env (monitorFilename loggerDir t.rank)
    (some t.allow_early_resets) none
  return GymEnv.wrapDeepmind env t.wrapper_kwargs

/-- `make_atari_env` (lines 69-105).  Normalizes `wrapper_kwargs`, builds
the `_thunk` list with ranks `start_index + i`, calls
`set_global_seeds(seed)`, and returns `DummyVecEnv(thunks)` when
`num_env == 1 or not use_subprocess`, else
`SubprocVecEnv(thunks, start_method=start_method)`. -/
def make_atari_env (env_id : String) (num_env : Int) (seed : Int)
    (wrapper_kwargs : Option (List (String × String))) (start_index : Int)
    (allow_early_resets : Bool) (start_method : Option String)
    (use_subprocess : Bool) : PyM (VecEnv AtariThunk) := do
  let wk := wrapper_kwargs.getD []
  let mkEnv : Int → AtariThunk := fun rank =>
    { env_id := env_id, seed := seed, wrapper_kwargs := wk,
      allow_early_resets := allow_early_resets, rank := rank }
  emit (Effect.setGlobalSeeds seed)
  if num_env = 1 ∨ ¬ use_subprocess then
    PyM.pure (VecEnv.dummy
      ((List.range num_env.toNat).map (fun (i : Nat) => mkEnv ((i : Int) + start_index))))
  else
    PyM.pure (VecEnv.subproc
      ((List.range num_env.toNat).map (fun (i : Nat) => mkEnv ((i : Int) + start_index)))
      start_method)

/-- Local names of `make_mujoco_env`: its parameters and `env`, all bound
once line 119 executes.  The name `rank` is not among them, nor among the
module globals. -/
def mujoco_locals : List String := ["env_id", "seed", "allow_early_resets", "env"]

/-- `make_mujoco_env` (lines 108-121).  Calls
`set_global_seeds(seed + 10000 * mpi_rank_or_zero())` and `gym.make(env_id)`;
then line 119 evaluates `str(rank)` while building the Monitor filename, and
`rank` is defined neither locally nor globally, so a NameError is raised
there: the Monitor wrapping and the final `env.seed(seed)` never run, but
the global seeding and the environment creation have already happened.
`mpiRank` is the external `mpi_rank_or_zero()` value. -/
def make_mujoco_env (env_id : String) (seed : Int) (mpiRank : Int)
    (allow_early_resets : Bool) : PyM GymEnv := do
  emit (Effect.setGlobalSeeds (seed + 10000 * mpiRank))
  let env := GymEnv.gymMake env_id
  emit (Effect.createEnv env)
  checkName mujoco_locals mujoco_locals module_globals "rank"
  pyRaise (PyError.nameError "rank")

/-- The default value of the `rank` parameter of `make_robotics_env`
(line 124: `rank=0`). -/
def robotics_rank_default : Int := 0

/-- `make_robotics_env` (lines 124-141).  Calls `set_global_seeds(seed)`,
creates `gym.make(env_id)`, wraps it in
`FlattenDictWrapper(env, ['observation', 'desired_goal'])`, wraps that in a
Monitor with filename `logger.get_dir() and os.path.join(logger.get_dir(),
str(rank))`, `info_keywords=('is_success',)` and `allow_early_resets`, then
calls `env.seed(seed)` on the outermost wrapper and returns it.
`loggerDir` is the external `logger.get_dir()` value. -/
def make_robotics_env (loggerDir : Option String) (env_id : String)
    (seed : Int) (rank : Int) (allow_early_resets : Bool) : PyM GymEnv := do
  emit (Effect.setGlobalSeeds seed)
  let env := GymEnv.gymMake env_id
  emit (Effect.createEnv env)
  let env := GymEnv.flattenDict env ["observation", "desired_goal"]
  let env := GymEnv.monitor env (monitorFilename loggerDir rank)
    (some allow_early_resets) (some ["is_success"])
  emit (Effect.envSeed env seed)
  return env

/-- One `add_argument` registration: flag name, help text, argument type
(`none` when not passed), default value, and action (`none` when not
passed). -/
structure ArgSpec where
  flag : String
  help : Option String
  argType : Option String
  dflt : Option (String ⊕ Int ⊕ Bool)
  action : Option String
deriving Repr, DecidableEq

/-- `arg_parser` (lines 144-151): an empty ArgumentParser, modelled as its
(empty) list of registered arguments. -/
def arg_parser_schema : List ArgSpec := []

/-- `parser.add_argument(...)`: appends one argument registration. -/
def add_argument (p : List ArgSpec) (a : ArgSpec) : List ArgSpec := p ++ [a]

/-- `atari_arg_parser` (lines 154-164).  `int(1e7)` is 10000000: the float
literal 1e7 is exactly 10^7. -/
def atari_arg_parser_schema : List ArgSpec :=
  add_argument (add_argument (add_argument arg_parser_schema
    { flag := "--env", help := some "environment ID", argType := none,
      dflt := some (Sum.inl "BreakoutNoFrameskip-v4"), action := none })
    { flag := "--seed", help := some "RNG seed", argType := some "int",
      dflt := some (Sum.inr (Sum.inl 0)), action := none })
    { flag := "--num-timesteps", help := none, argType := some "int",
      dflt := some (Sum.inr (Sum.inl 10000000)), action := none }

/-- `mujoco_arg_parser` (lines 167-178).  `int(1e6)` is 1000000. -/
def mujoco_arg_parser_schema : List ArgSpec :=
  add_argument (add_argument (add_argument (add_argument arg_parser_schema
    { flag := "--env", help := some "environment ID", argType := some "str",
      dflt := some (Sum.inl "Reacher-v2"), action := none })
    { flag := "--seed", help := some "RNG seed", argType := some "int",
      dflt := some (Sum.inr (Sum.inl 0)), action := none })
    { flag := "--num-timesteps", help := none, argType := some "int",
      dflt := some (Sum.inr (Sum.inl 1000000)), action := none })
    { flag := "--play", help := none, argType := none,
      dflt := some (Sum.inr (Sum.inr false)), action := some "store_true" }

/-- `robotics_arg_parser` (lines 181-191). -/
def robotics_arg_parser_schema : List ArgSpec :=
  add_argument (add_argument (add_argument arg_parser_schema
    { flag := "--env", help := some "environment ID", argType := some "str",
      dflt := some (Sum.inl "FetchReach-v0"), action := none })
    { flag := "--seed", help := some "RNG seed", argType := some "int",
      dflt := some (Sum.inr (Sum.inl 0)), action := none })
    { flag := "--num-timesteps", help := none, argType := some "int",
      dflt := some (Sum.inr (Sum.inl 1000000)), action := none }

/-- The thunk list held by a vector environment. -/
def VecEnv.envFns {τ : Type} : VecEnv τ → List τ
  | VecEnv.dummy fns => fns
  | VecEnv.subproc fns _ => fns

/-- Whether a vector environment is the SubprocVecEnv variant. -/
def VecEnv.isSubproc {τ : Type} : VecEnv τ → Bool
  | VecEnv.dummy _ => false
  | VecEnv.subproc _ _ => true

/-- Whether a run produced a SubprocVecEnv. -/
def resultIsSubproc {τ : Type} : PyResult (VecEnv τ) → Bool
  | PyResult.ok v _ => v.isSubproc
  | PyResult.error _ _ => false

/-- The thunk list of a successful vector-environment construction. -/
def resultFns {τ : Type} : PyResult (VecEnv τ) → Option (List τ)
  | PyResult.ok v _ => some v.envFns
  | PyResult.error _ _ => none

/-- The effect trace of a run, whether it succeeded or raised. -/
def resultTrace {α : Type} : PyResult α → List Effect
  | PyResult.ok _ tr => tr
  | PyResult.error _ tr => tr

/-- The `_init` thunk list `[make_env(i + start_index) for i in range(n_envs)]`
that `make_vec_env` hands to the vector-environment constructor. -/
def make_vec_env_fns (env_id : EnvId) (n_envs : Int) (seed : Option Int)
    (start_index : Int) (monitor_path : Option String)
    (wrapper_class : Option Nat) (kwargs : List (String × String)) :
    List InitThunk :=
  (List.range n_envs.toNat).map (fun (i : Nat) =>
    { env_id := env_id, seed := seed, monitor_path := monitor_path,
      wrapper_class := wrapper_class, env_kwargs := kwargs,
      rank := (i : Int) + start_index })

/-- The `_thunk` list `[make_env(i + start_index) for i in range(num_env)]`
that `make_atari_env` hands to the vector-environment constructor. -/
def make_atari_env_fns (env_id : String) (num_env : Int) (seed : Int)
    (wk : List (String × String)) (start_index : Int)
    (allow_early_resets : Bool) : List AtariThunk :=
  (List.range num_env.toNat).map (fun (i : Nat) =>
    { env_id := env_id, seed := seed, wrapper_kwargs := wk,
      allow_early_resets := allow_early_resets,
      rank := (i : Int) + start_index })

/-- Effects of lines 43-45 of `_init`: `env.seed(seed)` and
`env.action_space.seed(seed)` when a seed was given, nothing otherwise. -/
def initSeedEffects (t : InitThunk) : List Effect :=
  match t.seed with
  | some s => [Effect.envSeed (initBaseEnv t) s,
               Effect.actionSpaceSeed (initBaseEnv t) s]
  | none => []

/-- Effect of lines 59-60 of `make_vec_env`: `set_global_seeds(seed)` when a
seed was given, nothing otherwise. -/
def seedGlobalEffects (seed : Option Int) : List Effect :=
  match seed with
  | some s => [Effect.setGlobalSeeds s]
  | none => []

/-- At line 48 of `_init`, `monitor_path` is local (it is assigned on that
line) and not yet bound, so the read raises UnboundLocalError. -/
lemma init_monitor_path_unbound :
    checkName init_assigned ["env"] init_outer "monitor_path" =
      pyRaise (PyError.unboundLocal "monitor_path") := rfl

/-- At line 119 of `make_mujoco_env`, `rank` is neither a local nor a module
global, so the read raises NameError. -/
lemma mujoco_rank_undefined :
    checkName mujoco_locals mujoco_locals module_globals "rank" =
      pyRaise (PyError.nameError "rank") := rfl

/-- Closed form of `make_vec_env`: it always succeeds, appends the optional
global-seeding effect, and returns a DummyVecEnv over the thunk list when
`n_envs == 1 or not use_subprocess`, else a SubprocVecEnv over the same
list with `start_method` forwarded. -/
lemma make_vec_env_eq (env_id : EnvId) (n_envs : Int) (seed : Option Int)
    (si : Int) (usp : Bool) (sm : Option String) (mp : Option String)
    (wc : Option Nat) (ek : Option (List (String × String)))
    (tr : List Effect) :
    make_vec_env env_id n_envs seed si usp sm mp wc ek tr =
      PyResult.ok
        (if n_envs = 1 ∨ ¬ usp then
          VecEnv.dummy (make_vec_env_fns env_id n_envs seed si mp wc (ek.getD []))
        else
          VecEnv.subproc
            (make_vec_env_fns env_id n_envs seed si mp wc (ek.getD [])) sm)
        (tr ++ seedGlobalEffects seed) := by
  by_cases hn : n_envs = 1 ∨ ¬ usp <;> cases h : seed <;>
    simp only [make_vec_env, make_vec_env_fns, seedGlobalEffects, h,
      Bind.bind, PyM.bind, emit, PyM.pure, List.append_nil] <;>
    (first | rw [if_pos hn, if_pos hn] | rw [if_neg hn, if_neg hn]) <;> rfl

/-- Closed form of `make_atari_env`: it always succeeds, appends the
global-seeding effect, and returns a DummyVecEnv over the thunk list when
`num_env == 1 or not use_subprocess`, else a SubprocVecEnv over the same
list with `start_method` forwarded. -/
lemma make_atari_env_eq (env_id : String) (num_env seed : Int)
    (wk : Option (List (String × String))) (si : Int) (aer : Bool)
    (sm : Option String) (usp : Bool) (tr : List Effect) :
    make_atari_env env_id num_env seed wk si aer sm usp tr =
      PyResult.ok
        (if num_env = 1 ∨ ¬ usp then
          VecEnv.dummy (make_atari_env_fns env_id num_env seed (wk.getD []) si aer)
        else
          VecEnv.subproc
            (make_atari_env_fns env_id num_env seed (wk.getD []) si aer) sm)
        (tr ++ [Effect.setGlobalSeeds seed]) := by
  by_cases hn : num_env = 1 ∨ ¬ usp <;>
    simp only [make_atari_env, make_atari_env_fns,
      Bind.bind, PyM.bind, emit, PyM.pure] <;>
    (first | rw [if_pos hn, if_pos hn] | rw [if_neg hn, if_neg hn]) <;> rfl

/-- Both vector-environment variants hold the same thunk list. -/
lemma envFns_ite {T : Type} (c : Prop) [Decidable c] (fns : List T)
    (sm : Option String) :
    VecEnv.envFns (if c then VecEnv.dummy fns else VecEnv.subproc fns sm) =
      fns := by
  by_cases h : c <;> simp [h, VecEnv.envFns]

/-- The ranks of the `make_vec_env` thunks are `start_index + i` for
`i = 0, ..., n.toNat - 1`, in increasing order. -/
lemma make_vec_env_fns_rank (env_id : EnvId) (n : Int) (seed : Option Int)
    (si : Int) (mp : Option String) (wc : Option Nat)
    (kw : List (String × String)) :
    (make_vec_env_fns env_id n seed si mp wc kw).map InitThunk.rank =
      (List.range n.toNat).map (fun (i : Nat) => si + (i : Int)) := by
  simp [make_vec_env_fns, List.map_map, Function.comp_def, Int.add_comm]

/-- `make_vec_env` builds one thunk per element of `range(n_envs)`. -/
lemma make_vec_env_fns_length (env_id : EnvId) (n : Int) (seed : Option Int)
    (si : Int) (mp : Option String) (wc : Option Nat)
    (kw : List (String × String)) :
    (make_vec_env_fns env_id n seed si mp wc kw).length = n.toNat := by
  simp [make_vec_env_fns]

/-- The ranks of the `make_atari_env` thunks are `start_index + i` for
`i = 0, ..., n.toNat - 1`, in increasing order. -/
lemma make_atari_env_fns_rank (env_id : String) (n seed : Int)
    (wk : List (String × String)) (si : Int) (aer : Bool) :
    (make_atari_env_fns env_id n seed wk si aer).map AtariThunk.rank =
      (List.range n.toNat).map (fun (i : Nat) => si + (i : Int)) := by
  simp [make_atari_env_fns, List.map_map, Function.comp_def, Int.add_comm]

/-- `make_atari_env` builds one thunk per element of `range(num_env)`. -/
lemma make_atari_env_fns_length (env_id : String) (n seed : Int)
    (wk : List (String × String)) (si : Int) (aer : Bool) :
    (make_atari_env_fns env_id n seed wk si aer).length = n.toNat := by
  simp [make_atari_env_fns]

/-- Claim C1: the claim says every initializer built by `make_vec_env` wraps
its environment in a Monitor before the environment reaches the vector
environment.  The code does not do this: at the concrete call
`make_vec_env('CartPole-v1')` (all defaults) the construction succeeds and
hands over one initializer, but running that initializer raises
UnboundLocalError on `monitor_path` (line 48) after creating the bare
environment, so no Monitor is ever applied and no monitored environment is
produced. -/
theorem make_vec_env_initializer_fails_before_monitor :
    make_vec_env (EnvId.str "CartPole-v1") 1 none 0 false none none none none
        [] =
      PyResult.ok
        (VecEnv.dummy [⟨EnvId.str "CartPole-v1", none, none, none, [], 0⟩]) []
    ∧ runInitThunk ⟨EnvId.str "CartPole-v1", none, none, none, [], 0⟩ [] =
      PyResult.error (PyError.unboundLocal "monitor_path")
        [Effect.createEnv (GymEnv.gymMake "CartPole-v1")] := by
  exact ⟨by decide, by decide⟩

/-- Claim C2, counterexample: the claim says the result is a SubprocVecEnv
exactly when `use_subprocess` is true and the environment count is greater
than 1.  At `n_envs = 0` with `use_subprocess = true` the code takes the
SubprocVecEnv branch (the guard is `n_envs == 1 or not use_subprocess`),
although 0 is not greater than 1, so the stated equivalence is false. -/
theorem make_vec_env_subproc_despite_zero_envs :
    ¬ (resultIsSubproc (make_vec_env (EnvId.str "Pendulum-v0") 0 none 0 true
          none none none none []) = true
        ↔ (true = true ∧ (0 : Int) > 1)) := by decide

/-- Claim C2, amended: for every argument combination, `make_vec_env` and
`make_atari_env` return a SubprocVecEnv exactly when `use_subprocess` is
true and the requested environment count is not equal to 1, and a
DummyVecEnv in every other case; no other argument affects which vector
type is returned. -/
theorem vec_type_subproc_iff_use_subprocess_and_not_one
    (env_id : EnvId) (n_envs : Int) (seed : Option Int) (si : Int)
    (usp : Bool) (sm : Option String) (mp : Option String) (wc : Option Nat)
    (ek : Option (List (String × String))) (tr : List Effect) (aid : String)
    (nae seedA : Int) (wk : Option (List (String × String))) (sia : Int)
    (aer : Bool) (sma : Option String) (uspa : Bool) (tra : List Effect) :
    (resultIsSubproc (make_vec_env env_id n_envs seed si usp sm mp wc ek tr)
        = true ↔ (usp = true ∧ n_envs ≠ 1))
    ∧ (resultIsSubproc (make_atari_env aid nae seedA wk sia aer sma uspa tra)
        = true ↔ (uspa = true ∧ nae ≠ 1)) := by
  constructor
  · rw [make_vec_env_eq]
    by_cases hn : n_envs = 1 <;> cases usp <;>
      simp [resultIsSubproc, VecEnv.isSubproc, hn]
  · rw [make_atari_env_eq]
    by_cases hn : nae = 1 <;> cases uspa <;>
      simp [resultIsSubproc, VecEnv.isSubproc, hn]

/-- Claim C3: the claim says `make_mujoco_env` returns a Monitor-wrapped,
seeded environment.  The code cannot: at the concrete call
`make_mujoco_env('Reacher-v2', 0)` (MPI rank 0) it raises NameError on the
undefined name `rank` at line 119, after the global seeding and the
environment creation but before any Monitor wrapping or `env.seed` call. -/
theorem make_mujoco_env_raises_at_concrete_input :
    make_mujoco_env "Reacher-v2" 0 0 true [] =
      PyResult.error (PyError.nameError "rank")
        [Effect.setGlobalSeeds 0,
         Effect.createEnv (GymEnv.gymMake "Reacher-v2")] := by decide

/-- Claim C4: `make_atari_env` hands over thunks whose ranks are
`start_index + i` for `i in range(num_env)`; running the `i`-th thunk seeds
its environment with `seed + rank = seed + start_index + i`; and the
function itself performs exactly one `set_global_seeds(seed)` call, before
the vector environment is constructed and returned. -/
theorem make_atari_env_seeding (env_id : String) (num_env seed : Int)
    (wk : Option (List (String × String))) (si : Int) (aer : Bool)
    (sm : Option String) (usp : Bool) (tr : List Effect) (ld : Option String)
    (t : AtariThunk) (tr' : List Effect) :
    resultFns (make_atari_env env_id num_env seed wk si aer sm usp tr) =
      some (make_atari_env_fns env_id num_env seed (wk.getD []) si aer)
    ∧ resultTrace (make_atari_env env_id num_env seed wk si aer sm usp tr) =
      tr ++ [Effect.setGlobalSeeds seed]
    ∧ (make_atari_env_fns env_id num_env seed (wk.getD []) si aer).map
        AtariThunk.rank =
      (List.range num_env.toNat).map (fun (i : Nat) => si + (i : Int))
    ∧ runAtariThunk ld t tr' =
      PyResult.ok
        (GymEnv.wrapDeepmind
          (GymEnv.monitor (GymEnv.makeAtari t.env_id)
            (monitorFilename ld t.rank) (some t.allow_early_resets) none)
          t.wrapper_kwargs)
        (tr' ++ [Effect.createEnv (GymEnv.makeAtari t.env_id),
                 Effect.envSeed (GymEnv.makeAtari t.env_id)
                   (t.seed + t.rank)]) := by
  refine ⟨?_, ?_, make_atari_env_fns_rank env_id num_env seed (wk.getD []) si aer, ?_⟩
  · rw [make_atari_env_eq]
    simp [resultFns, envFns_ite]
  · rw [make_atari_env_eq]
    simp [resultTrace]
  · simp [runAtariThunk, emit, PyM.pure, PyM.bind, Bind.bind, Pure.pure]

/-- Claim C5: the three argument-parser constructors register fixed,
input-independent schemas: atari has `--env` defaulting to
BreakoutNoFrameskip-v4, `--seed` (int, default 0) and `--num-timesteps`
(int, default 10^7); mujoco has `--env` defaulting to Reacher-v2, `--seed`
(int, default 0), `--num-timesteps` (int, default 10^6) and `--play`
(default False, store_true); robotics has `--env` defaulting to
FetchReach-v0, `--seed` (int, default 0) and `--num-timesteps` (int,
default 10^6). -/
theorem arg_parser_schemas_are_fixed_constants :
    atari_arg_parser_schema =
      [{ flag := "--env", help := some "environment ID", argType := none,
         dflt := some (Sum.inl "BreakoutNoFrameskip-v4"), action := none },
       { flag := "--seed", help := some "RNG seed", argType := some "int",
         dflt := some (Sum.inr (Sum.inl 0)), action := none },
       { flag := "--num-timesteps", help := none, argType := some "int",
         dflt := some (Sum.inr (Sum.inl (10 ^ 7))), action := none }]
    ∧ mujoco_arg_parser_schema =
      [{ flag := "--env", help := some "environment ID", argType := some "str",
         dflt := some (Sum.inl "Reacher-v2"), action := none },
       { flag := "--seed", help := some "RNG seed", argType := some "int",
         dflt := some (Sum.inr (Sum.inl 0)), action := none },
       { flag := "--num-timesteps", help := none, argType := some "int",
         dflt := some (Sum.inr (Sum.inl (10 ^ 6))), action := none },
       { flag := "--play", help := none, argType := none,
         dflt := some (Sum.inr (Sum.inr false)), action := some "store_true" }]
    ∧ robotics_arg_parser_schema =
      [{ flag := "--env", help := some "environment ID", argType := some "str",
         dflt := some (Sum.inl "FetchReach-v0"), action := none },
       { flag := "--seed", help := some "RNG seed", argType := some "int",
         dflt := some (Sum.inr (Sum.inl 0)), action := none },
       { flag := "--num-timesteps", help := none, argType := some "int",
         dflt := some (Sum.inr (Sum.inl (10 ^ 6))), action := none }] := by
  exact ⟨by decide, by decide, by decide⟩

/-- Claim C6: the value returned by `make_vec_env` and by `make_atari_env`
is exactly one of the two imported constructors, DummyVecEnv or
SubprocVecEnv, applied to the list of environment thunks (with
`start_method` forwarded in the SubprocVecEnv case); the module adds no
vector-environment logic of its own. -/
theorem vec_env_constructed_only_by_imported_constructors
    (env_id : EnvId) (n_envs : Int) (seed : Option Int) (si : Int)
    (usp : Bool) (sm : Option String) (mp : Option String) (wc : Option Nat)
    (ek : Option (List (String × String))) (tr : List Effect) (aid : String)
    (nae seedA : Int) (wk : Option (List (String × String))) (sia : Int)
    (aer : Bool) (sma : Option String) (uspa : Bool) (tra : List Effect) :
    (make_vec_env env_id n_envs seed si usp sm mp wc ek tr =
        PyResult.ok
          (VecEnv.dummy (make_vec_env_fns env_id n_envs seed si mp wc (ek.getD [])))
          (tr ++ seedGlobalEffects seed)
      ∨ make_vec_env env_id n_envs seed si usp sm mp wc ek tr =
        PyResult.ok
          (VecEnv.subproc (make_vec_env_fns env_id n_envs seed si mp wc (ek.getD []))
            sm)
          (tr ++ seedGlobalEffects seed))
    ∧ (make_atari_env aid nae seedA wk sia aer sma uspa tra =
        PyResult.ok
          (VecEnv.dummy (make_atari_env_fns aid nae seedA (wk.getD []) sia aer))
          (tra ++ [Effect.setGlobalSeeds seedA])
      ∨ make_atari_env aid nae seedA wk sia aer sma uspa tra =
        PyResult.ok
          (VecEnv.subproc (make_atari_env_fns aid nae seedA (wk.getD []) sia aer)
            sma)
          (tra ++ [Effect.setGlobalSeeds seedA])) := by
  constructor
  · rw [make_vec_env_eq]
    by_cases hn : n_envs = 1 ∨ ¬ usp
    · exact Or.inl (by rw [if_pos hn])
    · exact Or.inr (by rw [if_neg hn])
  · rw [make_atari_env_eq]
    by_cases hn : nae = 1 ∨ ¬ uspa
    · exact Or.inl (by rw [if_pos hn])
    · exact Or.inr (by rw [if_neg hn])

/-- Claim C7: for every nonnegative environment count n (and any other
arguments), `make_vec_env` and `make_atari_env` build exactly n environment
initializers, with the consecutive ranks `start_index + i` for
`i = 0, ..., n-1` in increasing order. -/
theorem vec_env_builds_consecutive_ranks (n : Nat) (env_id : EnvId)
    (seed : Option Int) (si : Int) (usp : Bool) (sm : Option String)
    (mp : Option String) (wc : Option Nat)
    (ek : Option (List (String × String))) (tr : List Effect) (aid : String)
    (seedA : Int) (wk : Option (List (String × String))) (aer : Bool)
    (sma : Option String) (uspa : Bool) (tra : List Effect) :
    ((resultFns (make_vec_env env_id (n : Int) seed si usp sm mp wc ek tr)).map
        (List.map InitThunk.rank) =
      some ((List.range n).map (fun (i : Nat) => si + (i : Int))))
    ∧ ((resultFns (make_vec_env env_id (n : Int) seed si usp sm mp wc ek tr)).map
        List.length = some n)
    ∧ ((resultFns (make_atari_env aid (n : Int) seedA wk si aer sma uspa tra)).map
        (List.map AtariThunk.rank) =
      some ((List.range n).map (fun (i : Nat) => si + (i : Int))))
    ∧ ((resultFns (make_atari_env aid (n : Int) seedA wk si aer sma uspa tra)).map
        List.length = some n) := by
  rw [make_vec_env_eq, make_atari_env_eq]
  simp [resultFns, envFns_ite, make_vec_env_fns_rank, make_vec_env_fns_length,
    make_atari_env_fns_rank, make_atari_env_fns_length]

/-- Claim C8: running any initializer produced by `make_vec_env` (for every
argument combination, including `monitor_path = None`) raises
UnboundLocalError: the conditional assignment at line 48 makes
`monitor_path` local to `_init` and reads it before it is bound.  The run
performs only the environment creation and the optional seeding effects of
lines 39-45: the Monitor wrapping, the `os.makedirs` branch (with its
undefined `log_dir`), and the `wrapper_class` wrapping are never reached. -/
theorem make_vec_env_init_raises_unbound_local (t : InitThunk)
    (tr : List Effect) :
    runInitThunk t tr = PyResult.error (PyError.unboundLocal "monitor_path")
      (tr ++ Effect.createEnv (initBaseEnv t) :: initSeedEffects t) := by
  cases h : t.seed <;>
    simp [runInitThunk, initSeedEffects, h, emit, init_monitor_path_unbound,
      pyRaise, PyM.pure, PyM.bind, Bind.bind, Pure.pure]

/-- Claim C9: for every `env_id`, `seed` and MPI rank, `make_mujoco_env`
raises NameError on the undefined name `rank` while building the Monitor
filename at line 119, and the failure is not atomic: the trace at the error
already contains `set_global_seeds(seed + 10000 * mpi_rank)` and the
creation of `gym.make(env_id)`. -/
theorem make_mujoco_env_name_error_not_atomic (env_id : String)
    (seed mpiRank : Int) (aer : Bool) (tr : List Effect) :
    make_mujoco_env env_id seed mpiRank aer tr =
      PyResult.error (PyError.nameError "rank")
        (tr ++ [Effect.setGlobalSeeds (seed + 10000 * mpiRank),
                Effect.createEnv (GymEnv.gymMake env_id)]) := by
  simp [make_mujoco_env, emit, mujoco_rank_undefined, pyRaise,
    PyM.pure, PyM.bind, Bind.bind, Pure.pure]

/-- Claim C10: for every logger directory, `env_id`, `seed` and `rank`,
`make_robotics_env` returns
`Monitor(FlattenDictWrapper(gym.make(env_id), ['observation',
'desired_goal']), info_keywords=('is_success',))`, and `env.seed(seed)` is
called on the outermost wrapper after all wrapping (the last effect of the
trace names the fully wrapped environment); the `rank` parameter defaults
to 0. -/
theorem make_robotics_env_wrapper_order (ld : Option String)
    (env_id : String) (seed rank : Int) (aer : Bool) (tr : List Effect) :
    make_robotics_env ld env_id seed rank aer tr =
      PyResult.ok
        (GymEnv.monitor
          (GymEnv.flattenDict (GymEnv.gymMake env_id)
            ["observation", "desired_goal"])
          (monitorFilename ld rank) (some aer) (some ["is_success"]))
        (tr ++ [Effect.setGlobalSeeds seed,
                Effect.createEnv (GymEnv.gymMake env_id),
                Effect.envSeed
                  (GymEnv.monitor
                    (GymEnv.flattenDict (GymEnv.gymMake env_id)
                      ["observation", "desired_goal"])
                    (monitorFilename ld rank) (some aer) (some ["is_success"]))
                  seed])
    ∧ robotics_rank_default = 0 := by
  constructor
  · simp [make_robotics_env, emit, PyM.pure, PyM.bind, Bind.bind, Pure.pure]
  · rfl

end CmdUtil
